import Mathlib

/-!
Verification development for a small family of Jira command-line tools
(`link_ticket.py`, `transition_ticket.py`, `view_ticket.py`).

The Python sources are shallowly embedded: each method that the claims touch
is translated into an executable Lean definition.  Remote behaviour (the Jira
server) is supplied by an explicit environment record: catalogs and tickets are
fields of the environment, ticket fetches may fail (modelling a non-2xx
response, whose rendered exception text is the environment's `httpErr`/
`fetchErr` function), and the external Python runtime facilities that the
tools call (datetime formatting, float formatting, `json.dumps` of the raw
payload) are environment-supplied functions.  Each operation returns a
`RunOut` record collecting, in program order, the lines printed to stdout, the
lines printed to stderr, the process exit code, and the list of HTTP requests
issued.
-/

/-- Python's `needle in hay` on strings, at the character-list level:
`needle` occurs as a contiguous substring of `hay` (the empty needle always
matches). -/
def sublistB [BEq α] (needle hay : List α) : Bool :=
  hay.tails.any fun t => needle.isPrefixOf t

/-- Python's `needle in hay` on strings. -/
def pyIn (needle hay : String) : Bool :=
  sublistB needle.data hay.data

/-- Python's `str.lower()` (the tools only ever compare ASCII catalog names,
so per-character ASCII lowering is the faithful model). -/
def pyLower (s : String) : String :=
  String.mk (s.data.map Char.toLower)

/-- `LinkType` catalog entry: id, canonical name, and the two direction
labels, as returned by `GET /issueLinkType` (fields `id`, `name`, `inward`,
`outward`). -/
structure LinkType where
  id : String
  name : String
  inward : String
  outward : String
deriving Repr, DecidableEq

/-- `JiraLinker.find_link_type`: three matching tiers — exact
case-insensitive name match, then case-insensitive substring of the name,
then case-insensitive substring of the inward or outward label; each tier is
scanned in catalog order and the first hit wins.  The catalog list is the
fetched `issueLinkTypes` in server order. -/
def find_link_type (link_types : List LinkType) (name : String) : Option LinkType :=
  let name_lower := pyLower name
  match link_types.find? (fun lt => pyLower lt.name == name_lower) with
  | some lt => some lt
  | none =>
    match link_types.find? (fun lt => pyIn name_lower (pyLower lt.name)) with
    | some lt => some lt
    | none =>
      link_types.find? (fun lt =>
        pyIn name_lower (pyLower lt.inward) || pyIn name_lower (pyLower lt.outward))

/-- A workflow transition as returned by `GET /issue/{key}/transitions`:
id, display name, and the destination status name `to.name` when present
(`toName = none` models a missing `"to"` object or name, for which the code
substitutes a default at each use site). -/
structure Transition where
  id : String
  name : String
  toName : Option String
deriving Repr, DecidableEq

/-- `JiraTransitioner.find_transition` (minus the network fetch, which the
callers issue and record in their request trace): exact case-insensitive
match on the transition name, then case-insensitive substring match; first
hit in catalog order wins; returns `(id, name)` of the match. -/
def find_transition (transitions : List Transition) (target_status : String) :
    Option (String × String) :=
  let target_lower := pyLower target_status
  match transitions.find? (fun t => pyLower t.name == target_lower) with
  | some t => some (t.id, t.name)
  | none =>
    match transitions.find? (fun t => pyIn target_lower (pyLower t.name)) with
    | some t => some (t.id, t.name)
    | none => none

def blocksLT : LinkType :=
  { id := "10000", name := "Blocks", inward := "is blocked by", outward := "blocks" }

def blockedByLT : LinkType :=
  { id := "10001", name := "Blocked by", inward := "is held by", outward := "holds" }

def relatesLT : LinkType :=
  { id := "10002", name := "Relates", inward := "relates to", outward := "relates to" }

/-- The catalog of §8's resolver-tier-ordering scenario, in fetched order. -/
def demoCatalog : List LinkType := [blocksLT, blockedByLT, relatesLT]

/-- The two directional payloads an `IssueLink` can carry: the fetched link
object contains either an `outwardIssue` or an `inwardIssue` reference. -/
inductive LinkDir where
  | outward
  | inward
deriving Repr, DecidableEq

/-- The linked-issue reference nested in a fetched `IssueLink`
(`key`, `fields.summary`, `fields.status.name`). -/
structure IssueRef where
  key : String
  summary : String
  statusName : String
deriving Repr, DecidableEq

/-- A fetched issue link: link id, its `LinkType`, and exactly one
directional reference (`outwardIssue` or `inwardIssue`). -/
structure IssueLink where
  id : String
  type : LinkType
  dir : LinkDir
  ref : IssueRef
deriving Repr, DecidableEq

/-- The part of a ticket the link tool fetches
(`?fields=summary,status,issuelinks`); the status field is requested but
never read by the code. -/
structure LinkTicket where
  summary : String
  issuelinks : List IssueLink
deriving Repr, DecidableEq

/-- The JSON body submitted by `JiraLinker.create_link`:
`type.name`, `outwardIssue.key`, `inwardIssue.key`, optional `comment.body`. -/
structure LinkPayload where
  typeName : String
  outwardKey : String
  inwardKey : String
  comment : Option String
deriving Repr, DecidableEq

/-- One HTTP request issued by the tools, abstracted to endpoint + payload. -/
inductive Req where
  /-- `GET /issueLinkType` -/
  | getLinkTypes
  /-- `GET /issue/{key}?fields=summary,status,issuelinks` (link tool) -/
  | getTicket (key : String)
  /-- `POST /issueLink` with the `create_link` body -/
  | postLink (payload : LinkPayload)
  /-- `DELETE /issueLink/{linkId}` -/
  | deleteLink (linkId : String)
  /-- `GET /issue/{key}` (transition tool, unfiltered) -/
  | getTicketFull (key : String)
  /-- `GET /issue/{key}/transitions` -/
  | getTransitions (key : String)
  /-- `POST /issue/{key}/transitions` with body `{transition: {id}}` -/
  | postTransition (key : String) (transitionId : String)
  /-- `GET /issue/{key}?fields=...` (view tool; `full` appends `comment`) -/
  | getTicketView (key : String) (full : Bool)
deriving Repr, DecidableEq

/-- HTTP method of each request. -/
def Req.isMutating : Req → Bool
  | .postLink _ => true
  | .deleteLink _ => true
  | .postTransition _ _ => true
  | _ => false

/-- Observable outcome of one tool invocation: stdout lines (one entry per
`print` call, embedded newlines kept verbatim), stderr lines, process exit
code, and the HTTP requests issued, in program order. -/
structure RunOut where
  stdout : List String
  stderr : List String
  exitCode : Nat
  reqs : List Req
deriving Repr, DecidableEq

/-- The remote state the link tool runs against: the link-type catalog in
server order, the tickets reachable by key (`none` models a fetch that fails,
e.g. HTTP 404), and the exception text `str(e)` produced for such a failed
fetch. -/
structure LinkEnv where
  linkTypes : List LinkType
  tickets : String → Option LinkTicket
  httpErr : String → String

/-- `JiraLinker.get_ticket` as seen by the callers: a successful fetch
returns the ticket, a failed one the raised exception's text. -/
def fetchTicket (env : LinkEnv) (key : String) : Except String LinkTicket :=
  match env.tickets key with
  | some t => .ok t
  | none => .error (env.httpErr key)

/-- The body built by `JiraLinker.create_link`: the source key goes into the
`inwardIssue` slot and the target key into the `outwardIssue` slot (the
deliberate swap compensating for the Jira UI displaying links opposite from
the API semantics). -/
def create_link_data (source_key target_key link_type_name : String)
    (comment : Option String) : LinkPayload :=
  { typeName := link_type_name
    outwardKey := target_key
    inwardKey := source_key
    comment := comment }

/-- The read-path direction selection used by `list_issue_links`,
`execute_remove` and the view tool: a link carrying an `outwardIssue`
displays the type's outward label with that reference, a link carrying an
`inwardIssue` displays the inward label with that reference. -/
def readPathSelect (link : IssueLink) : String × IssueRef :=
  match link.dir with
  | .outward => (link.type.outward, link.ref)
  | .inward => (link.type.inward, link.ref)

/-- `"=" * 60` -/
def hr60 : String := String.mk (List.replicate 60 '=')

/-- `"=" * 80` -/
def hr80 : String := String.mk (List.replicate 80 '=')

/-- `"-" * 80` -/
def dash80 : String := String.mk (List.replicate 80 '-')

/-- The three lines `list_issue_links` prints per link. -/
def render_link (link : IssueLink) : List String :=
  let sel := readPathSelect link
  let direction := sel.1
  let linked_key := sel.2.key
  let linked_summary := sel.2.summary
  let linked_status := sel.2.statusName
  let link_id := link.id
  [s!"\n  [{link_id}] {direction}:",
   s!"    {linked_key}: {linked_summary}",
   s!"    Status: {linked_status}"]

/-- `JiraLinker.list_issue_links`. -/
def list_issue_links (env : LinkEnv) (issue_key : String) : RunOut :=
  match fetchTicket env issue_key with
  | .error msg =>
    { stdout := [], stderr := [s!"Error: {msg}"], exitCode := 1,
      reqs := [.getTicket issue_key] }
  | .ok ticket =>
    let summary := ticket.summary
    let links := ticket.issuelinks
    let header := [s!"\n{issue_key}: {summary}", hr60]
    if links.isEmpty then
      { stdout := header ++ ["  No links found"], stderr := [], exitCode := 0,
        reqs := [.getTicket issue_key] }
    else
      let n := links.length
      { stdout := header ++ [s!"\nLinks ({n}):"] ++ (links.map render_link).flatten,
        stderr := [], exitCode := 0, reqs := [.getTicket issue_key] }

/-- The three lines `list_link_types` prints per catalog entry. -/
def render_link_type (lt : LinkType) : List String :=
  let name := lt.name
  let lid := lt.id
  let outward := lt.outward
  let inward := lt.inward
  [s!"\n  {name} (ID: {lid})",
   s!"    Outward: \"{outward}\"",
   s!"    Inward:  \"{inward}\""]

/-- `JiraLinker.list_link_types` (the `--list-types` command). -/
def list_link_types (env : LinkEnv) : RunOut :=
  let header := ["\nAvailable Link Types:", hr60]
  if env.linkTypes.isEmpty then
    { stdout := header ++ ["  (No link types available)"], stderr := [],
      exitCode := 0, reqs := [.getLinkTypes] }
  else
    { stdout := header ++ (env.linkTypes.map render_link_type).flatten ++
        ["\n" ++ hr60,
         "Usage: link_ticket.py SOURCE TARGET \"Link Type Name\"",
         "Example: link_ticket.py PROJ-123 PROJ-456 \"Blocks\"",
         "         (PROJ-123 blocks PROJ-456)"],
      stderr := [], exitCode := 0, reqs := [.getLinkTypes] }

/-- `JiraLinker.execute_link`: resolve the link type (fetching the catalog),
fetch both tickets for the confirmation display, preview, then either stop on
`--dry-run` or submit the swapped payload. -/
def execute_link (env : LinkEnv) (source_key target_key link_type_name : String)
    (comment : Option String) (dry_run : Bool) : RunOut :=
  match find_link_type env.linkTypes link_type_name with
  | none =>
    { stdout := [s!"Error: Unknown link type \x27{link_type_name}\x27",
                 "\nUse --list-types to see available link types"],
      stderr := [], exitCode := 1, reqs := [.getLinkTypes] }
  | some link_type =>
    match fetchTicket env source_key with
    | .error msg =>
      { stdout := [], stderr := [s!"Error: {msg}"], exitCode := 1,
        reqs := [.getLinkTypes, .getTicket source_key] }
    | .ok source_ticket =>
      match fetchTicket env target_key with
      | .error msg =>
        { stdout := [], stderr := [s!"Error: {msg}"], exitCode := 1,
          reqs := [.getLinkTypes, .getTicket source_key, .getTicket target_key] }
      | .ok target_ticket =>
        let source_summary := source_ticket.summary
        let target_summary := target_ticket.summary
        let tname := link_type.name
        let outward := link_type.outward
        let inward := link_type.inward
        let preview :=
          [s!"\nSource: {source_key}: {source_summary}",
           s!"Target: {target_key}: {target_summary}",
           s!"\nLink Type: {tname}",
           s!"  {source_key} {outward} {target_key}",
           s!"  {target_key} {inward} {source_key}"] ++
          (match comment with
           | some c => [s!"\nComment: {c}"]
           | none => [])
        let reads := [Req.getLinkTypes, .getTicket source_key, .getTicket target_key]
        if dry_run then
          { stdout := preview ++ ["\nDry run: No changes made"], stderr := [],
            exitCode := 0, reqs := reads }
        else
          { stdout := preview ++ ["\nLink created successfully!"], stderr := [],
            exitCode := 0,
            reqs := reads ++
              [.postLink (create_link_data source_key target_key link_type.name comment)] }

/-- The preview line `execute_remove` prints for the link about to be
removed, built by the read-path direction rule. -/
def preview_line (link : IssueLink) : String :=
  let sel := readPathSelect link
  let direction := sel.1
  let linked_key := sel.2.key
  s!"  {direction} {linked_key}"

/-- `JiraLinker.execute_remove`: fetch the ticket's current links, locate the
link by id (string-compared), fail NotFound when absent, else preview it via
the read-path rule and delete by id. -/
def execute_remove (env : LinkEnv) (issue_key link_id : String) : RunOut :=
  match fetchTicket env issue_key with
  | .error msg =>
    { stdout := [], stderr := [s!"Error: {msg}"], exitCode := 1,
      reqs := [.getTicket issue_key] }
  | .ok ticket =>
    match ticket.issuelinks.find? (fun l => l.id == link_id) with
    | none =>
      { stdout := [s!"Error: Link ID {link_id} not found on {issue_key}",
                   "\nUse --list to see existing links and their IDs"],
        stderr := [], exitCode := 1, reqs := [.getTicket issue_key] }
    | some target_link =>
      let link_type := target_link.type.name
      { stdout := [s!"\nRemoving link from {issue_key}:",
                   s!"  Link ID: {link_id}",
                   s!"  Type: {link_type}",
                   preview_line target_link,
                   "\nLink removed successfully!"],
        stderr := [], exitCode := 0,
        reqs := [.getTicket issue_key, .deleteLink link_id] }

/-- The part of a ticket the transition tool reads: `fields.summary` and
`fields.status.name`. -/
structure TransTicket where
  summary : String
  statusName : String
deriving Repr, DecidableEq

/-- The remote state the transition tool runs against: tickets by key, the
per-ticket transition catalog in server order, the ticket state observed when
re-fetching key `k` after `POST`ing transition id `t` (`after k t`), and the
exception text for a failed ticket fetch. -/
structure TransEnv where
  tickets : String → Option TransTicket
  transitionsOf : String → List Transition
  after : String → String → Option TransTicket
  fetchErr : String → String

/-- Python's rendering of a possibly-`None` string variable in an f-string. -/
def pyOptStr (o : Option String) : String := o.getD "None"

/-- The line printed per transition in the NotFound branch of
`execute_transition`: `to.name` defaults to `"Unknown"` when absent. -/
def transition_catalog_line (t : Transition) : String :=
  let name := t.name
  let to_status := t.toName.getD "Unknown"
  s!"  - {name} → {to_status}"

/-- `JiraTransitioner.execute_transition`: fetch the ticket, resolve the
target status against the fetched transitions, on NotFound print the full
transition catalog and exit 1; else compute the destination status (a second
`get_transitions` fetch), stop on `--dry-run`, else `POST` the transition id
and re-fetch the ticket to report the observed before/after status. -/
def execute_transition (env : TransEnv) (issue_key target_status : String)
    (dry_run : Bool) : RunOut :=
  match env.tickets issue_key with
  | none =>
    { stdout := [], stderr := [s!"❌ Error: {env.fetchErr issue_key}"],
      exitCode := 1, reqs := [.getTicketFull issue_key] }
  | some ticket =>
    let current_status := ticket.statusName
    let summary := ticket.summary
    let header := [s!"\n📋 {issue_key}: {summary}",
                   s!"Current Status: {current_status}"]
    let transitions := env.transitionsOf issue_key
    match find_transition transitions target_status with
    | none =>
      { stdout := header ++
          [s!"\n❌ Cannot transition to \x27{target_status}\x27",
           "\nAvailable transitions:"] ++
          transitions.map transition_catalog_line,
        stderr := [], exitCode := 1,
        reqs := [.getTicketFull issue_key, .getTransitions issue_key,
                 .getTransitions issue_key] }
    | some found =>
      let transition_id := found.1
      let transition_name := found.2
      let to_status : Option String :=
        (transitions.find? (fun t => t.id == transition_id)).map
          (fun t => t.toName.getD target_status)
      let ts := pyOptStr to_status
      let reads := [Req.getTicketFull issue_key, .getTransitions issue_key,
                    .getTransitions issue_key]
      if dry_run then
        { stdout := header ++
            [s!"\n🔍 Dry run: Would transition to \x27{ts}\x27",
             s!"   Using transition: {transition_name} (ID: {transition_id})"],
          stderr := [], exitCode := 0, reqs := reads }
      else
        match env.after issue_key transition_id with
        | none =>
          { stdout := header ++ [s!"Transitioning to: {ts}"],
            stderr := [s!"❌ Error: {env.fetchErr issue_key}"], exitCode := 1,
            reqs := reads ++ [.postTransition issue_key transition_id,
                              .getTicketFull issue_key] }
        | some updated =>
          let new_status := updated.statusName
          { stdout := header ++
              [s!"Transitioning to: {ts}",
               s!"✅ Success! Status: {current_status} → {new_status}"],
            stderr := [], exitCode := 0,
            reqs := reads ++ [.postTransition issue_key transition_id,
                              .getTicketFull issue_key] }

/-- JSON values as decoded by `json.loads` (numbers restricted to the
integers; the error envelopes the claims concern carry only strings and
arrays). Objects keep the decoded key/value pairs in order with unique
keys. -/
inductive Json where
  | null
  | bool (b : Bool)
  | num (n : Int)
  | str (s : String)
  | arr (elems : List Json)
  | obj (fields : List (String × Json))
deriving Repr, Inhabited

mutual

/-- Python's `repr` on a `json.loads` result (strings quoted). -/
def pyRepr : Json → String
  | .null => "None"
  | .bool true => "True"
  | .bool false => "False"
  | .num n => toString n
  | .str s => "\x27" ++ s ++ "\x27"
  | .arr l => "[" ++ pyReprArr l ++ "]"
  | .obj l => "\x7b" ++ pyReprObj l ++ "\x7d"

/-- Comma-joined `repr`s of a list's elements. -/
def pyReprArr : List Json → String
  | [] => ""
  | [j] => pyRepr j
  | j :: rest => pyRepr j ++ ", " ++ pyReprArr rest

/-- Comma-joined `repr`s of a dict's items. -/
def pyReprObj : List (String × Json) → String
  | [] => ""
  | [(k, v)] => "\x27" ++ k ++ "\x27: " ++ pyRepr v
  | (k, v) :: rest => "\x27" ++ k ++ "\x27: " ++ pyRepr v ++ ", " ++ pyReprObj rest

end

/-- Python's `str` on a `json.loads` result (top-level strings unquoted). -/
def pyStr : Json → String
  | .str s => s
  | j => pyRepr j

/-- The error-message extraction in `_make_request`'s `except HTTPError`
handler.  `body` is the decoded response body (`none` when `json.loads`
raises) and `estr` is `str(e)`, the transport's rendering of the HTTP error.
The code evaluates `json.loads(error_body).get("errorMessages", [str(e)])[0]`
inside a bare `try/except` falling back to `str(e)`:
- a non-dict decoded body makes `.get` raise → fallback;
- a missing key yields the default `[str(e)]`, whose element 0 is `str(e)`;
- an empty `errorMessages` list makes `[0]` raise IndexError → fallback;
- a non-empty list yields its first element, rendered by the f-string;
- a non-empty string value yields its first character (Python indexing),
  an empty string raises IndexError → fallback;
- any other value makes `[0]` raise → fallback. -/
def extract_error_msg (body : Option Json) (estr : String) : String :=
  match body with
  | none => estr
  | some j =>
    match j with
    | .obj o =>
      match o.lookup "errorMessages" with
      | none => estr
      | some (.arr []) => estr
      | some (.arr (x :: _)) => pyStr x
      | some (.str s) =>
        match s.data with
        | [] => estr
        | c :: _ => String.mk [c]
      | some _ => estr
    | _ => estr

/-- The text of the exception `_make_request` raises for a non-2xx response:
`f"HTTP {e.code}: {error_msg}"`. -/
def make_request_error (code : Nat) (estr : String) (body : Option Json) : String :=
  let msg := extract_error_msg body estr
  s!"HTTP {code}: {msg}"

/-- A comment as the view tool reads it: optional `author.displayName`,
optional `created` timestamp, and the body after the code's
dict-to-`str` coercion (absent bodies arrive as `"(empty)"`). -/
structure JComment where
  author : Option String
  created : Option String
  body : String
deriving Repr, DecidableEq

/-- A linked-issue reference in the view tool, with the defensive defaults of
`display_ticket` already applied at the response boundary
(`key` → `"?"`, `summary` → `""`, `status.name` → `""`). -/
structure VRef where
  key : String
  summary : String
  statusName : String
deriving Repr, DecidableEq

/-- An issue link as the view tool reads it; `payload = none` models a link
object carrying neither `outwardIssue` nor `inwardIssue`, which the rendering
loop skips (`continue`). The direction labels carry the defaults
`"links to"` / `"linked from"` when absent; `typeName` defaults to
`"Related"` and is computed but never printed by the loop. -/
structure VLink where
  typeName : String
  outwardLabel : String
  inwardLabel : String
  payload : Option (LinkDir × VRef)
deriving Repr, DecidableEq

/-- A subtask entry (`key` → `"?"`, `summary` → `""`, `status.name` → `""`
defaults applied at the boundary). -/
structure SubtaskEntry where
  key : String
  summary : String
  statusName : String
deriving Repr, DecidableEq

/-- A parent entry (`key` → `"?"`, `summary` → `""`). -/
structure VParent where
  key : String
  summary : String
deriving Repr, DecidableEq

/-- An attachment entry (`filename` → `"Unknown"`, `size` → `0`). -/
structure VAttach where
  filename : String
  size : Nat
deriving Repr, DecidableEq

/-- The typed view of the ticket payload `JiraViewer.get_ticket` returns.
Fields the code reads through `.get` with a default are `Option`s here;
`hasDescription` is the truthiness of `fields.get("description")` and
`renderedDescription` is `renderedFields.description` (`some ""` is falsy for
the code's `if rendered:`). -/
structure ViewTicket where
  summary : Option String
  status : Option String
  issuetype : Option String
  priority : Option String
  assignee : Option String
  reporter : Option String
  created : Option String
  updated : Option String
  labels : List String
  fixVersions : List String
  components : List String
  hasDescription : Bool
  renderedDescription : Option String
  comments : List JComment
  issuelinks : List VLink
  subtasks : List SubtaskEntry
  parent : Option VParent
  attachments : List VAttach
deriving Repr

/-- The remote state and runtime facilities of the view tool: the site
hostname, tickets by key, the datetime library's parse-and-format step
(`none` models a parse failure), Python's `f"{size/1024:.1f}"` float
formatting, `json.dumps` of the raw fetched payload, and the exception text
of a failed fetch. -/
structure ViewEnv where
  site : String
  tickets : String → Option ViewTicket
  fd : String → Option String
  fmtKb : Nat → String
  rawDump : String → String
  fetchErr : String → String

/-- `JiraViewer.format_date`: empty (falsy) input yields `"Unknown"`; the
datetime parse/format step is the external function `fd`, whose failure
(the bare `except`) returns the input unchanged. -/
def format_date (fd : String → Option String) (date_string : String) : String :=
  if date_string == "" then "Unknown"
  else
    match fd date_string with
    | some s => s
    | none => date_string

/-- One step of `re.sub('<[^<]+?>', '', rendered)`: the length `m ≥ 1` of the
shortest run of non-`<` characters in `cs` that is followed by `>`
(`cs` is the text after a literal `<`); `none` when a `<` or the end of the
string intervenes, in which case the regex does not match at this `<`. -/
def tagLen : List Char → Nat → Option Nat
  | [], _ => none
  | c :: cs, i =>
    if 1 ≤ i && c == '>' then some i
    else if c == '<' then none
    else tagLen cs (i + 1)

/-- `re.sub('<[^<]+?>', '', rendered)` on the character list: leftmost,
shortest (lazy) matches are removed, scanning resumes after each removal. -/
def stripTagsAux (s : List Char) : List Char :=
  match s with
  | [] => []
  | c :: cs =>
    if c == '<' then
      match h : tagLen cs 0 with
      | some m => stripTagsAux (cs.drop (m + 1))
      | none => c :: stripTagsAux cs
    else c :: stripTagsAux cs
termination_by s.length
decreasing_by
  · simp [List.length_drop]; omega
  · simp
  · simp

/-- The HTML-tag strip applied to the rendered description. -/
def stripTags (s : String) : String := String.mk (stripTagsAux s.data)

/-- The lines `display_ticket` prints for one comment (1-based index `i`):
header, body truncated to 200 characters, and a truncation marker when the
body is longer. -/
def comment_lines (fd : String → Option String) (i : Nat) (c : JComment) :
    List String :=
  let author := c.author.getD "Unknown"
  let created := format_date fd (c.created.getD "")
  let body := c.body.take 200
  [s!"\n{i}. {author} ({created}):", s!"   {body}"] ++
    (if 200 < c.body.length then ["   ... (truncated)"] else [])

/-- The comments section of `display_ticket` (printed only under `--full`):
header reporting the total count, separator, then the last five comments in
server order (`comments[-5:]`, enumerated from 1). -/
def comments_section (fd : String → Option String) (comments : List JComment) :
    List String :=
  if comments.isEmpty then ["\nComments: None"]
  else
    let n := comments.length
    [s!"\nComments ({n} total):", dash80] ++
      (((comments.drop (n - 5)).enum.map
        (fun p => comment_lines fd (p.1 + 1) p.2)).flatten)

/-- The line printed per linked issue in the view tool (links with neither
reference are skipped). -/
def vlink_lines (link : VLink) : List String :=
  match link.payload with
  | none => []
  | some (.outward, linked) =>
    let direction := link.outwardLabel
    let lkey := linked.key
    let lsum := linked.summary
    let lst := linked.statusName
    [s!"  {direction}: {lkey} - {lsum} ({lst})"]
  | some (.inward, linked) =>
    let direction := link.inwardLabel
    let lkey := linked.key
    let lsum := linked.summary
    let lst := linked.statusName
    [s!"  {direction}: {lkey} - {lsum} ({lst})"]

/-- The line printed per subtask. -/
def subtask_line (sub : SubtaskEntry) : String :=
  let skey := sub.key
  let ssum := sub.summary
  let sst := sub.statusName
  s!"  {skey}: {ssum} ({sst})"

/-- The description section of `display_ticket`. -/
def description_lines (t : ViewTicket) : List String :=
  if t.hasDescription then
    match t.renderedDescription with
    | some rendered =>
      if rendered == "" then
        ["\nDescription: (complex formatting, view in browser)"]
      else
        let clean_desc := stripTags rendered
        let shown := clean_desc.take 500
        ["\nDescription:", dash80, shown] ++
          (if 500 < clean_desc.length then ["... (truncated)"] else [])
    | none => ["\nDescription: (complex formatting, view in browser)"]
  else []

/-- `JiraViewer.display_ticket`: fetch, dump raw JSON under `--json`, else
print the sections in source order (header, status block, people, dates,
optional labels/versions/components, description, comments under `--full`,
linked issues, subtasks, parent, attachments, footer). -/
def display_ticket (env : ViewEnv) (issue_key : String)
    (full json_output : Bool) : RunOut :=
  match env.tickets issue_key with
  | none =>
    { stdout := [], stderr := [s!"❌ Error: {env.fetchErr issue_key}"],
      exitCode := 1, reqs := [.getTicketView issue_key full] }
  | some t =>
    if json_output then
      { stdout := [env.rawDump issue_key], stderr := [], exitCode := 0,
        reqs := [.getTicketView issue_key full] }
    else
      let summary := t.summary.getD "No title"
      let status := t.status.getD "Unknown"
      let issue_type := t.issuetype.getD "Unknown"
      let priority := t.priority.getD "Unknown"
      let assignee_name := t.assignee.getD "Unassigned"
      let reporter_name := t.reporter.getD "Unknown"
      let created := format_date env.fd (t.created.getD "")
      let updated := format_date env.fd (t.updated.getD "")
      let labelsJ := ", ".intercalate t.labels
      let versionsJ := ", ".intercalate t.fixVersions
      let compsJ := ", ".intercalate t.components
      let nsub := t.subtasks.length
      let natt := t.attachments.length
      let site := env.site
      let pre :=
        [s!"\n📋 {issue_key}: {summary}", hr80,
         s!"\nStatus: {status}", s!"Type: {issue_type}", s!"Priority: {priority}",
         s!"Assignee: {assignee_name}", s!"Reporter: {reporter_name}",
         s!"Created: {created}", s!"Updated: {updated}"] ++
        (if t.labels.isEmpty then [] else [s!"Labels: {labelsJ}"]) ++
        (if t.fixVersions.isEmpty then [] else [s!"Fix Versions: {versionsJ}"]) ++
        (if t.components.isEmpty then [] else [s!"Components: {compsJ}"]) ++
        description_lines t
      let commentsPart := if full then comments_section env.fd t.comments else []
      let post :=
        (if t.issuelinks.isEmpty then []
         else ["\nLinked Issues:", dash80] ++ (t.issuelinks.map vlink_lines).flatten) ++
        (if t.subtasks.isEmpty then []
         else [s!"\nSubtasks ({nsub}):", dash80] ++ t.subtasks.map subtask_line) ++
        (match t.parent with
         | some p =>
           let pkey := p.key
           let psum := p.summary
           [s!"\nParent: {pkey} - {psum}"]
         | none => []) ++
        (if t.attachments.isEmpty then []
         else [s!"\nAttachments ({natt}):", dash80] ++
           t.attachments.map (fun att =>
             let filename := att.filename
             let kb := env.fmtKb att.size
             s!"  {filename} ({kb} KB)")) ++
        ["\n" ++ hr80, s!"View in browser: https://{site}/browse/{issue_key}", ""]
      { stdout := pre ++ commentsPart ++ post, stderr := [], exitCode := 0,
        reqs := [.getTicketView issue_key full] }




/-! ## Helper lemmas -/

lemma sublistB_nil [BEq α] (l : List α) : sublistB [] l = true := by
  cases l <;> simp [sublistB, List.isPrefixOf]

lemma pyIn_empty_left (s : String) : pyIn "" s = true := by
  have h : ("" : String).data = [] := rfl
  simp [pyIn, h, sublistB_nil]

lemma pyLower_empty : pyLower "" = "" := rfl

/-! ## Claims -/

/-- C8: for every non-2xx HTTP response, the surfaced error message carries
the numeric status code, and its message part is the first string of the
body's `errorMessages` array when the decoded body is a JSON object with a
non-empty `errorMessages` list, while a non-JSON body, a missing key, or an
empty `errorMessages` list fall back to the transport's status text. -/
theorem C8_transport_error_extraction
    (code : Nat) (estr : String) (o : List (String × Json)) (s : String)
    (rest : List Json) :
    (o.lookup "errorMessages" = some (.arr (Json.str s :: rest)) →
      make_request_error code estr (some (.obj o)) = s!"HTTP {code}: {s}")
    ∧ make_request_error code estr none = s!"HTTP {code}: {estr}"
    ∧ (o.lookup "errorMessages" = none →
      make_request_error code estr (some (.obj o)) = s!"HTTP {code}: {estr}")
    ∧ (o.lookup "errorMessages" = some (.arr []) →
      make_request_error code estr (some (.obj o)) = s!"HTTP {code}: {estr}") := by
  refine ⟨fun h => ?_, ?_, fun h => ?_, fun h => ?_⟩
  · simp [make_request_error, extract_error_msg, h, pyStr]
  · simp [make_request_error, extract_error_msg]
  · simp [make_request_error, extract_error_msg, h]
  · simp [make_request_error, extract_error_msg, h]

/-- Witness for C8 at a concrete envelope and a concrete JSON-less body. -/
theorem C8_witness :
    make_request_error 404 "HTTP Error 404: Not Found"
        (some (.obj [("errorMessages", Json.arr [Json.str "Issue does not exist"])]))
      = "HTTP 404: Issue does not exist"
    ∧ make_request_error 404 "HTTP Error 404: Not Found" none
      = "HTTP 404: HTTP Error 404: Not Found" := by
  have h := C8_transport_error_extraction 404 "HTTP Error 404: Not Found"
    [("errorMessages", Json.arr [Json.str "Issue does not exist"])]
    "Issue does not exist" []
  exact ⟨h.1 (by rfl), h.2.1⟩

/-- C3: both resolvers apply their tiers in order — exact case-insensitive
name match, then case-insensitive substring-of-name match, then (link types
only) case-insensitive substring match against either direction label — and
return the first catalog entry (in stable fetched order) of the first tier
with a candidate; in particular the catalog `{Blocks, Blocked by, Relates}`
resolves the query "block" to "Blocks", never "Blocked by". -/
theorem C3_resolver_tier_ordering :
    (∀ (cat : List LinkType) (q : String),
      ((cat.find? (fun lt => pyLower lt.name == pyLower q)).isSome →
        find_link_type cat q = cat.find? (fun lt => pyLower lt.name == pyLower q))
      ∧ (cat.find? (fun lt => pyLower lt.name == pyLower q) = none →
        (cat.find? (fun lt => pyIn (pyLower q) (pyLower lt.name))).isSome →
        find_link_type cat q = cat.find? (fun lt => pyIn (pyLower q) (pyLower lt.name)))
      ∧ (cat.find? (fun lt => pyLower lt.name == pyLower q) = none →
        cat.find? (fun lt => pyIn (pyLower q) (pyLower lt.name)) = none →
        find_link_type cat q = cat.find? (fun lt =>
          pyIn (pyLower q) (pyLower lt.inward) || pyIn (pyLower q) (pyLower lt.outward))))
    ∧ (∀ (ts : List Transition) (q : String),
      ((ts.find? (fun t => pyLower t.name == pyLower q)).isSome →
        find_transition ts q =
          (ts.find? (fun t => pyLower t.name == pyLower q)).map (fun t => (t.id, t.name)))
      ∧ (ts.find? (fun t => pyLower t.name == pyLower q) = none →
        find_transition ts q =
          (ts.find? (fun t => pyIn (pyLower q) (pyLower t.name))).map (fun t => (t.id, t.name))))
    ∧ find_link_type demoCatalog "block" = some blocksLT
    ∧ blocksLT.name = "Blocks" ∧ blockedByLT.name = "Blocked by" := by
  refine ⟨fun cat q => ⟨fun h1 => ?_, fun h1 h2 => ?_, fun h1 h2 => ?_⟩,
    fun ts q => ⟨fun h1 => ?_, fun h1 => ?_⟩, by decide, rfl, rfl⟩
  · obtain ⟨x, hx⟩ := Option.isSome_iff_exists.mp h1
    simp [find_link_type, hx]
  · obtain ⟨x, hx⟩ := Option.isSome_iff_exists.mp h2
    simp [find_link_type, h1, hx]
  · simp [find_link_type, h1, h2]
  · obtain ⟨x, hx⟩ := Option.isSome_iff_exists.mp h1
    simp [find_transition, hx]
  · cases hx : ts.find? (fun t => pyIn (pyLower q) (pyLower t.name)) <;>
      simp [find_transition, h1, hx]

/-- Witness for C3: on the §8 catalog the exact tier is empty for "block",
the substring tier fires, and its first (catalog-order) candidate "Blocks"
is returned. -/
theorem C3_witness :
    find_link_type demoCatalog "block" =
      demoCatalog.find? (fun lt => pyIn (pyLower "block") (pyLower lt.name))
    ∧ find_link_type demoCatalog "block" = some blocksLT := by
  have h := C3_resolver_tier_ordering
  exact ⟨(h.1 demoCatalog "block").2.1 (by decide) (by decide), h.2.2.1⟩

/-- A catalog entry whose canonical name is the empty string: the
empty-string query matches it exactly in tier 1. -/
def emptyNameLT : LinkType := { id := "10099", name := "", inward := "", outward := "" }

/-- The counterexample catalog for the empty-query claim: a later entry with
an empty name steals the exact-match tier from the first entry. -/
def c9Catalog : List LinkType := [blocksLT, emptyNameLT]

/-- C9 counterexample: the claim "for every non-empty catalog, resolving the
empty-string query returns the first catalog entry" fails: on the catalog
`[Blocks, <empty-name entry>]` the empty query is an exact (tier-1) match for
the later empty-named entry, which is returned instead of the head. -/
theorem C9_counterexample :
    c9Catalog ≠ []
    ∧ c9Catalog.head? = some blocksLT
    ∧ find_link_type c9Catalog "" = some emptyNameLT
    ∧ emptyNameLT ≠ blocksLT := by decide

/-- C9 (amended): provided the query matches no catalog name exactly (for
the empty query: no entry has an empty name), a query that is a
case-insensitive substring of the first entry's name — the empty query
always is — resolves to the first catalog entry, for both resolvers; and on
any non-empty catalog the empty query never yields NotFound. -/
theorem C9_empty_query_first_entry :
    (∀ (h0 : LinkType) (rest : List LinkType) (q : String),
      (h0 :: rest).find? (fun lt => pyLower lt.name == pyLower q) = none →
      pyIn (pyLower q) (pyLower h0.name) = true →
      find_link_type (h0 :: rest) q = some h0)
    ∧ (∀ (h0 : LinkType) (rest : List LinkType),
      (h0 :: rest).find? (fun lt => pyLower lt.name == pyLower "") = none →
      find_link_type (h0 :: rest) "" = some h0)
    ∧ (∀ (cat : List LinkType), cat ≠ [] → (find_link_type cat "").isSome)
    ∧ (∀ (h0 : Transition) (rest : List Transition) (q : String),
      (h0 :: rest).find? (fun t => pyLower t.name == pyLower q) = none →
      pyIn (pyLower q) (pyLower h0.name) = true →
      find_transition (h0 :: rest) q = some (h0.id, h0.name))
    ∧ (∀ (h0 : Transition) (rest : List Transition),
      (h0 :: rest).find? (fun t => pyLower t.name == pyLower "") = none →
      find_transition (h0 :: rest) "" = some (h0.id, h0.name))
    ∧ (∀ (ts : List Transition), ts ≠ [] → (find_transition ts "").isSome) := by
  have hlt : ∀ (h0 : LinkType) (rest : List LinkType) (q : String),
      (h0 :: rest).find? (fun lt => pyLower lt.name == pyLower q) = none →
      pyIn (pyLower q) (pyLower h0.name) = true →
      find_link_type (h0 :: rest) q = some h0 := by
    intro h0 rest q h1 h2
    simp only [find_link_type, h1]
    rw [List.find?_cons_of_pos (p := fun lt => pyIn (pyLower q) (pyLower lt.name)) rest h2]
  have htr : ∀ (h0 : Transition) (rest : List Transition) (q : String),
      (h0 :: rest).find? (fun t => pyLower t.name == pyLower q) = none →
      pyIn (pyLower q) (pyLower h0.name) = true →
      find_transition (h0 :: rest) q = some (h0.id, h0.name) := by
    intro h0 rest q h1 h2
    simp only [find_transition, h1]
    rw [List.find?_cons_of_pos (p := fun t => pyIn (pyLower q) (pyLower t.name)) rest h2]
  refine ⟨hlt, fun h0 rest h1 => ?_, fun cat hne => ?_, htr,
    fun h0 rest h1 => ?_, fun ts hne => ?_⟩
  · exact hlt h0 rest "" h1 (by rw [pyLower_empty]; exact pyIn_empty_left _)
  · match cat, hne with
    | h0 :: rest, _ =>
      cases h1 : (h0 :: rest).find? (fun lt => pyLower lt.name == pyLower "") with
      | some x => simp [find_link_type, h1]
      | none => rw [hlt h0 rest "" h1 (by rw [pyLower_empty]; exact pyIn_empty_left _)]; rfl
  · exact htr h0 rest "" h1 (by rw [pyLower_empty]; exact pyIn_empty_left _)
  · match ts, hne with
    | h0 :: rest, _ =>
      cases h1 : (h0 :: rest).find? (fun t => pyLower t.name == pyLower "") with
      | some x => simp [find_transition, h1]
      | none => rw [htr h0 rest "" h1 (by rw [pyLower_empty]; exact pyIn_empty_left _)]; rfl

/-- Witness for the amended C9 on the §8 catalog (all names non-empty). -/
theorem C9_witness :
    find_link_type demoCatalog "" = some blocksLT ∧ (find_link_type demoCatalog "").isSome := by
  have h := C9_empty_query_first_entry
  exact ⟨h.2.1 blocksLT [blockedByLT, relatesLT] (by decide),
    h.2.2.1 demoCatalog (by decide)⟩

/-- C2: every link creation with `(source, target, linkTypeName)` submits a
wire payload whose inward-issue slot holds the source key and whose
outward-issue slot holds the target key, and whose type-name field is the
resolved LinkType's canonical name verbatim; the `POST` is the final request
of the run and the only mutating one. -/
theorem C2_write_path_slot_swap
    (env : LinkEnv) (source_key target_key qname : String) (comment : Option String)
    (lt : LinkType) (tS tT : LinkTicket)
    (hf : find_link_type env.linkTypes qname = some lt)
    (hs : env.tickets source_key = some tS)
    (ht : env.tickets target_key = some tT) :
    (execute_link env source_key target_key qname comment false).reqs.getLast? =
      some (.postLink { typeName := lt.name, outwardKey := target_key,
                        inwardKey := source_key, comment := comment })
    ∧ ∀ p, Req.postLink p ∈ (execute_link env source_key target_key qname comment false).reqs →
        p.inwardKey = source_key ∧ p.outwardKey = target_key ∧ p.typeName = lt.name := by
  constructor
  · simp [execute_link, fetchTicket, hf, hs, ht, create_link_data, List.getLast?]
  · intro p hp
    simp [execute_link, fetchTicket, hf, hs, ht, create_link_data] at hp
    subst hp
    exact ⟨rfl, rfl, rfl⟩

/-- Witness environment for the link tool: the §8 catalog plus two tickets. -/
def linkEnvW : LinkEnv :=
  { linkTypes := demoCatalog
    tickets := fun k =>
      if k == "PROJ-123" then some { summary := "Source ticket", issuelinks := [] }
      else if k == "PROJ-456" then some { summary := "Target ticket", issuelinks := [] }
      else none
    httpErr := fun _ => "HTTP 404: Issue does not exist" }

/-- Witness for C2: creating `PROJ-123 Blocks PROJ-456` posts the payload
with PROJ-123 in the inward slot, PROJ-456 in the outward slot, and the
canonical name "Blocks" resolved from the query "blocks". -/
theorem C2_witness :
    (execute_link linkEnvW "PROJ-123" "PROJ-456" "blocks" none false).reqs.getLast? =
      some (.postLink { typeName := "Blocks", outwardKey := "PROJ-456",
                        inwardKey := "PROJ-123", comment := none }) := by
  have h := C2_write_path_slot_swap linkEnvW "PROJ-123" "PROJ-456" "blocks" none
    blocksLT { summary := "Source ticket", issuelinks := [] }
    { summary := "Target ticket", issuelinks := [] }
    (by decide) (by rfl) (by rfl)
  exact h.1

/-- C5: invoked with the dry-run flag, neither operation issues any mutating
(POST/DELETE) request, and the dry-run request trace is exactly the read
prefix of the corresponding non-dry-run trace up to its first mutating
request — for every environment and every input, over both the link-create
path and the transition path. -/
theorem C5_dry_run_no_op :
    (∀ (env : LinkEnv) (s t n : String) (c : Option String),
      (execute_link env s t n c true).reqs.all (fun r => !r.isMutating)
      ∧ (execute_link env s t n c true).reqs =
          (execute_link env s t n c false).reqs.takeWhile (fun r => !r.isMutating))
    ∧ (∀ (env : TransEnv) (k q : String),
      (execute_transition env k q true).reqs.all (fun r => !r.isMutating)
      ∧ (execute_transition env k q true).reqs =
          (execute_transition env k q false).reqs.takeWhile (fun r => !r.isMutating)) := by
  constructor
  · intro env s t n c
    cases hf : find_link_type env.linkTypes n with
    | none => simp [execute_link, hf, List.takeWhile, Req.isMutating]
    | some lt =>
      cases hs : env.tickets s with
      | none => simp [execute_link, fetchTicket, hf, hs, List.takeWhile, Req.isMutating]
      | some tS =>
        cases ht : env.tickets t with
        | none => simp [execute_link, fetchTicket, hf, hs, ht, List.takeWhile, Req.isMutating]
        | some tT => simp [execute_link, fetchTicket, hf, hs, ht, List.takeWhile, Req.isMutating]
  · intro env k q
    cases h0 : env.tickets k with
    | none => simp [execute_transition, h0, List.takeWhile, Req.isMutating]
    | some t0 =>
      cases hft : find_transition (env.transitionsOf k) q with
      | none => simp [execute_transition, h0, hft, List.takeWhile, Req.isMutating]
      | some pr =>
        cases ha : env.after k pr.1 with
        | none => simp [execute_transition, h0, hft, ha, List.takeWhile, Req.isMutating]
        | some u => simp [execute_transition, h0, hft, ha, List.takeWhile, Req.isMutating]

/-- C4 counterexample: on the link-create path the claim's "the caller
presents the full candidate catalog" fails — with a non-empty catalog
containing "Blocks" and a query matching no tier, `execute_link` exits 1
but none of its output lines mentions any catalog entry: it only points at
the separate `--list-types` command. -/
theorem C4_counterexample :
    linkEnvW.linkTypes ≠ []
    ∧ blocksLT ∈ linkEnvW.linkTypes
    ∧ find_link_type linkEnvW.linkTypes "nosuchtype" = none
    ∧ (execute_link linkEnvW "PROJ-123" "PROJ-456" "nosuchtype" none false).exitCode = 1
    ∧ (execute_link linkEnvW "PROJ-123" "PROJ-456" "nosuchtype" none false).stdout.all
        (fun line => !(pyIn "Blocks" line)) = true := by decide

/-- C4 (amended): when no tier matches, both paths fail NotFound (exit 1)
with no mutating request issued; the transition path prints the full
transition catalog inline (one line per entry, so non-empty whenever the
catalog is), while the link-create path stops after the catalog fetch and
directs the user to the `--list-types` command, whose listing prints every
catalog entry. -/
theorem C4_resolver_exhaustion :
    (∀ (env : LinkEnv) (s t q : String) (c : Option String) (d : Bool),
      find_link_type env.linkTypes q = none →
      (execute_link env s t q c d).exitCode = 1
      ∧ (execute_link env s t q c d).reqs = [.getLinkTypes]
      ∧ (execute_link env s t q c d).reqs.all (fun r => !r.isMutating) = true
      ∧ "\nUse --list-types to see available link types"
          ∈ (execute_link env s t q c d).stdout)
    ∧ (∀ (env : LinkEnv) (lt : LinkType), lt ∈ env.linkTypes →
      ∀ line ∈ render_link_type lt, line ∈ (list_link_types env).stdout)
    ∧ (∀ (env : TransEnv) (k q : String) (d : Bool) (t0 : TransTicket),
      env.tickets k = some t0 →
      find_transition (env.transitionsOf k) q = none →
      (execute_transition env k q d).exitCode = 1
      ∧ (execute_transition env k q d).reqs.all (fun r => !r.isMutating) = true
      ∧ ∀ tr ∈ env.transitionsOf k,
          transition_catalog_line tr ∈ (execute_transition env k q d).stdout) := by
  refine ⟨fun env s t q c d hf => ?_, fun env lt hlt line hline => ?_,
    fun env k q d t0 h0 hft => ?_⟩
  · simp [execute_link, hf, Req.isMutating]
  · have hne : env.linkTypes.isEmpty = false := by
      simp [List.isEmpty_iff, List.ne_nil_of_mem hlt]
    have hmem : line ∈ (env.linkTypes.map render_link_type).flatten :=
      List.mem_flatten.mpr ⟨render_link_type lt, List.mem_map_of_mem _ hlt, hline⟩
    simp [list_link_types, hne, hmem]
  · refine ⟨?_, ?_, fun tr htr => ?_⟩
    · simp [execute_transition, h0, hft]
    · simp [execute_transition, h0, hft, Req.isMutating]
    · have hmem : transition_catalog_line tr ∈
          (env.transitionsOf k).map transition_catalog_line :=
        List.mem_map_of_mem _ htr
      simp [execute_transition, h0, hft, hmem]

/-- Witness environment for the transition tool: one ticket in
"In Progress" with two available transitions; posting transition 31 lands
the ticket in "Closed". -/
def transEnvW : TransEnv :=
  { tickets := fun k =>
      if k == "PROJ-123" then some { summary := "Fix bug", statusName := "In Progress" }
      else none
    transitionsOf := fun k =>
      if k == "PROJ-123" then
        [{ id := "21", name := "Start work", toName := some "In Progress" },
         { id := "31", name := "Done", toName := some "Closed" }]
      else []
    after := fun k tid =>
      if k == "PROJ-123" && tid == "31" then
        some { summary := "Fix bug", statusName := "Closed" }
      else none
    fetchErr := fun _ => "HTTP 404: Issue does not exist" }

/-- Witness for the amended C4 on both paths at concrete inputs. -/
theorem C4_witness :
    (execute_link linkEnvW "PROJ-123" "PROJ-456" "nosuchtype2" none false).reqs
      = [.getLinkTypes]
    ∧ (execute_transition transEnvW "PROJ-123" "Rejected" false).exitCode = 1
    ∧ transition_catalog_line { id := "31", name := "Done", toName := some "Closed" }
        ∈ (execute_transition transEnvW "PROJ-123" "Rejected" false).stdout := by
  have h := C4_resolver_exhaustion
  have h1 := h.1 linkEnvW "PROJ-123" "PROJ-456" "nosuchtype2" none false (by decide)
  have h3 := h.2.2 transEnvW "PROJ-123" "Rejected" false
    { summary := "Fix bug", statusName := "In Progress" } (by rfl) (by decide)
  exact ⟨h1.2.1, h3.1, h3.2.2 _ (by decide)⟩

/-- C1: for a link type with distinct outward/inward labels, creating
`Create(A, B, type)` prints the sentence pairing the outward label with peer
B and posts B into the outward-issue slot; a fetched link on A that (per the
wire convention) carries an outward-pointing reference to B is rendered by
`List(A)` with exactly the type's outward label paired with peer B — never
the inward label, never A as the peer. -/
theorem C1_round_trip_directionality
    (env envA : LinkEnv) (lt : LinkType) (A B qname : String)
    (tS tT tA : LinkTicket) (l : IssueLink)
    (hf : find_link_type env.linkTypes qname = some lt)
    (hS : env.tickets A = some tS) (hT : env.tickets B = some tT)
    (hlab : lt.outward ≠ lt.inward)
    (hty : l.type = lt) (hdir : l.dir = .outward) (hkey : l.ref.key = B)
    (hA : envA.tickets A = some tA) (hmem : l ∈ tA.issuelinks) :
    s!"  {A} {lt.outward} {B}" ∈ (execute_link env A B qname none false).stdout
    ∧ Req.postLink { typeName := lt.name, outwardKey := B, inwardKey := A, comment := none }
        ∈ (execute_link env A B qname none false).reqs
    ∧ render_link l =
        [s!"\n  [{l.id}] {lt.outward}:",
         s!"    {B}: {l.ref.summary}",
         s!"    Status: {l.ref.statusName}"]
    ∧ (readPathSelect l).1 ≠ lt.inward
    ∧ ∀ line ∈ render_link l, line ∈ (list_issue_links envA A).stdout := by
  refine ⟨?_, ?_, ?_, ?_, fun line hline => ?_⟩
  · simp [execute_link, fetchTicket, hf, hS, hT]
  · simp [execute_link, fetchTicket, hf, hS, hT, create_link_data]
  · simp [render_link, readPathSelect, hdir, hty, hkey]
  · simp only [readPathSelect, hdir, hty]
    exact hlab
  · have hne : tA.issuelinks.isEmpty = false := by
      simp [List.isEmpty_iff, List.ne_nil_of_mem hmem]
    have hfl : line ∈ (tA.issuelinks.map render_link).flatten :=
      List.mem_flatten.mpr ⟨render_link l, List.mem_map_of_mem _ hmem, hline⟩
    simp [list_issue_links, fetchTicket, hA, hne, hfl]

/-- Witness environment in which ticket PROJ-123 carries the link created in
the C1 scenario: the fetched link has id 900, type Blocks, and an
outward-pointing reference to PROJ-456. -/
def wLink : IssueLink :=
  { id := "900", type := blocksLT, dir := .outward,
    ref := { key := "PROJ-456", summary := "Target ticket", statusName := "Open" } }

def linkEnvWA : LinkEnv :=
  { linkTypes := demoCatalog
    tickets := fun k =>
      if k == "PROJ-123" then
        some { summary := "Source ticket", issuelinks := [wLink] }
      else none
    httpErr := fun _ => "HTTP 404: Issue does not exist" }

/-- Witness for C1: the creation preview and the subsequent listing both
pair the outward label "blocks" with peer PROJ-456. -/
theorem C1_witness :
    "  PROJ-123 blocks PROJ-456"
      ∈ (execute_link linkEnvW "PROJ-123" "PROJ-456" "Blocks" none false).stdout
    ∧ "\n  [900] blocks:" ∈ (list_issue_links linkEnvWA "PROJ-123").stdout := by
  have h := C1_round_trip_directionality linkEnvW linkEnvWA blocksLT
    "PROJ-123" "PROJ-456" "Blocks"
    { summary := "Source ticket", issuelinks := [] }
    { summary := "Target ticket", issuelinks := [] }
    { summary := "Source ticket", issuelinks := [wLink] } wLink
    (by decide) (by rfl) (by rfl) (by decide) rfl rfl rfl (by rfl) (by decide)
  exact ⟨h.1, h.2.2.2.2 _ (by decide)⟩

/-- C6: removing a link id absent from the ticket's fetched link list fails
NotFound (exit code 1) with no DELETE issued; when the id is present the
link is previewed via the read-path direction rule (outward payload shows
the outward label, inward payload the inward label, each with the carried
reference's key) and the DELETE by id is issued. -/
theorem C6_remove_absent_id
    (env : LinkEnv) (key lid : String) (t : LinkTicket)
    (h : env.tickets key = some t) :
    ((∀ l ∈ t.issuelinks, l.id ≠ lid) →
      (execute_remove env key lid).exitCode = 1
      ∧ (execute_remove env key lid).reqs = [.getTicket key]
      ∧ (execute_remove env key lid).reqs.all (fun r => !r.isMutating) = true
      ∧ s!"Error: Link ID {lid} not found on {key}" ∈ (execute_remove env key lid).stdout)
    ∧ (∀ l, t.issuelinks.find? (fun x => x.id == lid) = some l →
      (execute_remove env key lid).reqs = [.getTicket key, .deleteLink lid]
      ∧ preview_line l ∈ (execute_remove env key lid).stdout
      ∧ (l.dir = .outward → preview_line l = s!"  {l.type.outward} {l.ref.key}")
      ∧ (l.dir = .inward → preview_line l = s!"  {l.type.inward} {l.ref.key}")) := by
  constructor
  · intro habs
    have hnone : t.issuelinks.find? (fun x => x.id == lid) = none :=
      List.find?_eq_none.mpr (fun x hx => by simp [habs x hx])
    simp [execute_remove, fetchTicket, h, hnone, Req.isMutating]
  · intro l hfind
    refine ⟨?_, ?_, fun hd => ?_, fun hd => ?_⟩
    · simp [execute_remove, fetchTicket, h, hfind]
    · simp [execute_remove, fetchTicket, h, hfind]
    · simp [preview_line, readPathSelect, hd]
    · simp [preview_line, readPathSelect, hd]

/-- Witness for C6: on the ticket carrying only link id 900, removing id 999
fails NotFound with only the read request issued, while removing id 900
previews and deletes. -/
theorem C6_witness :
    (execute_remove linkEnvWA "PROJ-123" "999").exitCode = 1
    ∧ (execute_remove linkEnvWA "PROJ-123" "999").reqs = [.getTicket "PROJ-123"]
    ∧ (execute_remove linkEnvWA "PROJ-123" "900").reqs
        = [.getTicket "PROJ-123", .deleteLink "900"]
    ∧ preview_line wLink ∈ (execute_remove linkEnvWA "PROJ-123" "900").stdout := by
  have h1 := C6_remove_absent_id linkEnvWA "PROJ-123" "999"
    { summary := "Source ticket", issuelinks := [wLink] } (by rfl)
  have h2 := C6_remove_absent_id linkEnvWA "PROJ-123" "900"
    { summary := "Source ticket", issuelinks := [wLink] } (by rfl)
  have ha := h1.1 (by decide)
  have hb := h2.2 wLink (by decide)
  exact ⟨ha.1, ha.2.1, hb.1, hb.2.1⟩

/-- C7: every successful non-dry-run transition reports as its "after"
status the status name of the ticket re-fetched after the POST — the
observed state — and exits 0; the reported line is built from the re-fetch,
not from the user-requested target name. -/
theorem C7_observed_state_authority
    (env : TransEnv) (key target : String) (t0 u : TransTicket) (tid tname : String)
    (h0 : env.tickets key = some t0)
    (hft : find_transition (env.transitionsOf key) target = some (tid, tname))
    (ha : env.after key tid = some u) :
    (execute_transition env key target false).stdout.getLast? =
      some (s!"✅ Success! Status: {t0.statusName} → {u.statusName}")
    ∧ (execute_transition env key target false).exitCode = 0 := by
  constructor
  · simp only [execute_transition, h0, hft, ha]
    rfl
  · simp [execute_transition, h0, hft, ha]

/-- Witness for C7: the user requests "Done", the server's workflow lands
the ticket in "Closed", and the success line reports "Closed". -/
theorem C7_witness :
    (execute_transition transEnvW "PROJ-123" "Done" false).stdout.getLast? =
      some "✅ Success! Status: In Progress → Closed"
    ∧ ("Closed" : String) ≠ "Done" := by
  have h := C7_observed_state_authority transEnvW "PROJ-123" "Done"
    { summary := "Fix bug", statusName := "In Progress" }
    { summary := "Fix bug", statusName := "Closed" }
    "31" "Done" (by rfl) (by decide) (by rfl)
  exact ⟨h.1, by decide⟩

/-- C10: under the full flag, the view renders the comments section inside
its output; the section's header reports the total count `n`, the rendered
entries are exactly those of `comments[-5:]` — the final segment of the
server-ordered list, of length `min n 5`, so earlier comments are never
rendered — and each entry's body line is cut to 200 characters, with a
truncation marker line appended exactly when the body is longer. -/
theorem C10_comment_display_cap
    (env : ViewEnv) (key : String) (t : ViewTicket)
    (h : env.tickets key = some t) (hne : t.comments ≠ []) :
    (∃ pre post, (display_ticket env key true false).stdout
        = pre ++ comments_section env.fd t.comments ++ post)
    ∧ (comments_section env.fd t.comments).head? =
        some (s!"\nComments ({t.comments.length} total):")
    ∧ comments_section env.fd t.comments =
        [s!"\nComments ({t.comments.length} total):", dash80] ++
          (((t.comments.drop (t.comments.length - 5)).enum.map
            (fun p => comment_lines env.fd (p.1 + 1) p.2)).flatten)
    ∧ (t.comments.drop (t.comments.length - 5)).length = min t.comments.length 5
    ∧ t.comments.take (t.comments.length - 5) ++
        t.comments.drop (t.comments.length - 5) = t.comments
    ∧ (∀ (i : Nat) (c : JComment),
        (comment_lines env.fd i c)[1]? = some (s!"   {c.body.take 200}")
        ∧ (200 < c.body.length → (comment_lines env.fd i c)[2]? =
            some "   ... (truncated)")
        ∧ (c.body.length ≤ 200 → (comment_lines env.fd i c).length = 2)) := by
  have hie : t.comments.isEmpty = false := by simp [List.isEmpty_iff, hne]
  refine ⟨?_, ?_, ?_, ?_, ?_, fun i c => ⟨?_, fun hb => ?_, fun hb => ?_⟩⟩
  · simp only [display_ticket, h]
    exact ⟨_, _, rfl⟩
  · simp [comments_section, hie]
  · simp [comments_section, hie]
  · simp [List.length_drop]
    omega
  · exact List.take_append_drop _ _
  · by_cases hb : 200 < c.body.length <;> simp [comment_lines, hb]
  · simp [comment_lines, hb]
  · simp [comment_lines, Nat.not_lt.mpr hb]

/-- The seven-comment ticket of the C10 witness: only the last five of its
comments may be rendered. -/
def viewTicketW : ViewTicket :=
  { summary := some "Fix bug", status := some "Open", issuetype := some "Bug",
    priority := some "High", assignee := none, reporter := none,
    created := none, updated := none, labels := [], fixVersions := [],
    components := [], hasDescription := false, renderedDescription := none,
    comments :=
      [{ author := some "A", created := none, body := "one" },
       { author := some "B", created := none, body := "two" },
       { author := some "C", created := none, body := "three" },
       { author := some "D", created := none, body := "four" },
       { author := some "E", created := none, body := "five" },
       { author := some "F", created := none, body := "six" },
       { author := some "G", created := none, body := "seven" }],
    issuelinks := [], subtasks := [], parent := none, attachments := [] }

/-- Witness environment for the view tool. -/
def viewEnvW : ViewEnv :=
  { site := "example.atlassian.net"
    tickets := fun k => if k == "PROJ-123" then some viewTicketW else none
    fd := fun _ => none
    fmtKb := fun n => toString n
    rawDump := fun _ => ""
    fetchErr := fun _ => "HTTP 404: Issue does not exist" }

/-- Witness for C10: with 7 comments the header reports 7 while exactly
`min 7 5 = 5` comments are rendered. -/
theorem C10_witness :
    (comments_section viewEnvW.fd viewTicketW.comments).head? =
      some "\nComments (7 total):"
    ∧ (viewTicketW.comments.drop (viewTicketW.comments.length - 5)).length
        = min viewTicketW.comments.length 5
    ∧ min viewTicketW.comments.length 5 = 5 := by
  have h := C10_comment_display_cap viewEnvW "PROJ-123" viewTicketW (by rfl) (by decide)
  exact ⟨h.2.1, h.2.2.2.1, by decide⟩
